import Mathlib

/-
Shallow embedding of two slices of the checkout SDK:

* the `SquareV2PaymentStrategy` and `WepayPaymentStrategy` payment strategies
  (order execution, the vaulted-instrument path, finalization);
* the embedded-checkout module (attach/detach lifecycle, cookie-consent flow,
  iframe creation with its load/error/timeout race, and the window-level
  message listener).

Stateful TypeScript methods are modelled as pure functions from their inputs
(an environment holding the outcomes of collaborator calls, plus explicit
state) to an effect trace together with a result.  `Except` models promise
resolution/rejection; `Option (Except ..)` models a promise that may never
settle (`none` = still pending).  Effect traces record, in program order, the
network and vendor-SDK calls and the DOM/UI side effects the code performs.
-/

/-- Subtypes of the not-embeddable error (`NotEmbeddableErrorType` in the
embedded-checkout bundle): `missing_container`, `missing_content`,
`unknown_error` (the constructor default). -/
inductive NotEmbeddableSubtype
  | missingContainer
  | missingContent
  | unknownError
deriving DecidableEq

/-- The error kinds raised by the modelled code.  `paymentArgumentInvalid`
models `PaymentArgumentInvalidError` (an invalid-argument error carrying the
offending field names); `notEmbeddable` models `NotEmbeddableError` with its
message and subtype. -/
inductive CheckoutError
  | invalidArgument (message : String)
  | paymentArgumentInvalid (fields : List String)
  | paymentMethodInvalid
  | orderFinalizationNotRequired
  | invalidLoginToken
  | notEmbeddable (message : String) (subtype : NotEmbeddableSubtype)
deriving DecidableEq

/-! ## SquareV2 payment strategy -/

/-- `SquareIntent` enum: `CHARGE` and `STORE`. -/
inductive SquareIntent
  | charge
  | store
deriving DecidableEq

/-- Payment data of an order payment request.  `instrumentId` present models a
vaulted instrument (`isVaultedInstrument` checks for the `instrumentId`
property); the two `should*` fields model the optional hosted-instrument
flags, `none` standing for the JS `undefined`.  Raw card fields play no role
in the strategy code and are abstracted away. -/
structure PaymentData where
  instrumentId : Option String
  shouldSaveInstrument : Option Bool
  shouldSetAsDefaultInstrument : Option Bool
deriving DecidableEq

/-- `OrderPaymentRequestBody`: method id plus optional payment data. -/
structure OrderPaymentRequestBody where
  methodId : String
  paymentData : Option PaymentData
deriving DecidableEq

/-- `OrderRequestBody` restricted to the field the strategies read: the
optional `payment`. -/
structure OrderRequestBody where
  payment : Option OrderPaymentRequestBody
deriving DecidableEq

/-- `isVaultedInstrument(paymentData)`: the payment data carries an
`instrumentId` property. -/
def isVaultedInstrument (pd : PaymentData) : Bool :=
  pd.instrumentId.isSome

/-- `isHostedInstrumentLike(paymentData)` (imported from the
payment-integration-api package, outside this repository): the payment data is
an object that may carry the hosted-instrument flags.  In this model every
present `PaymentData` is such an object and `undefined` is not. -/
def isHostedInstrumentLike : Option PaymentData → Bool
  | some _ => true
  | none => false

/-- The token submitted as `credit_card_token.token` by the non-vaulted path:
either the raw nonce, or the `JSON.stringify` blob combining the nonce with
the buyer-verification token(s). -/
inductive TokenValue
  | plain (nonce : String)
  | verified (nonce token : String)
  | verifiedWithStore (nonce storeCardNonce token storeCardToken : String)
deriving DecidableEq

/-- The `formattedPayload` shape of a submitted payment: `credit_card_token`
for the tokenization path, `bigpay_token` (with optional
`three_d_secure.token`) for the vaulted path. -/
inductive FormattedPayload
  | creditCardToken (token : TokenValue)
  | bigpayToken (token : String) (threeDSecure : Option String)
deriving DecidableEq

/-- The body handed to `submitPayment`. -/
structure SubmitPaymentBody where
  methodId : String
  payload : FormattedPayload
  vaultPaymentInstrument : Bool
  setAsDefaultStoredInstrument : Bool
deriving DecidableEq

/-- Network and vendor-SDK effects performed by `SquareV2PaymentStrategy`, in
program order.  `tokenize` and `verifyBuyer` are vendor-SDK calls;
`submitOrder`, `submitPayment` and `loadPaymentMethod` are calls to the
payment integration service (network). -/
inductive Effect
  | submitOrder
  | tokenize
  | verifyBuyer (source : String) (intent : SquareIntent)
  | loadPaymentMethod (methodId bigpayToken : String)
  | submitPayment (body : SubmitPaymentBody)
deriving DecidableEq

/-- Vendor-SDK calls among the strategy effects (`tokenize`, `verifyBuyer`). -/
def isVendorCall : Effect → Bool
  | .tokenize => true
  | .verifyBuyer _ _ => true
  | _ => false

/-- Environment of collaborator outcomes for one `execute` run: the 3-D-Secure
feature flag read by `_shouldVerify`, the nonces returned by the first and
second `tokenize()` calls, the `verifyBuyer` results, and the `cardId` found
in the payment method reloaded by `_getSquareCardIdOrThrow` (`none` when the
initialization data carries no card id). -/
structure SquareV2Env where
  shouldVerify : Bool
  tokenize1 : String
  tokenize2 : String
  verifyBuyer : String → SquareIntent → String
  cardIdFor : String → String → Option String

namespace SquareV2PaymentStrategy

/-- `_getSquareCardIdOrThrow`: reloads the payment method keyed by method id
and bigpay token, then fails with `PaymentArgumentInvalidError(['cardId'])`
when the resolved `cardId` is falsy (absent or the empty string). -/
def getSquareCardIdOrThrow (env : SquareV2Env) (methodId instrumentId : String) :
    List Effect × Except CheckoutError String :=
  ([Effect.loadPaymentMethod methodId instrumentId],
    match env.cardIdFor methodId instrumentId with
    | none => Except.error (CheckoutError.paymentArgumentInvalid ["cardId"])
    | some c =>
      if c = "" then Except.error (CheckoutError.paymentArgumentInvalid ["cardId"])
      else Except.ok c)

/-- `_processWithVaultedInstrument`: re-checks the vaulted guard, optionally
verifies the buyer against the resolved Square card id, then submits a
`bigpay_token` payload.  The `three_d_secure` entry is included only when the
verification token is truthy (a non-empty string). -/
def processWithVaultedInstrument (env : SquareV2Env) (payment : OrderPaymentRequestBody)
    (shouldSaveInstrument shouldSetAsDefaultInstrument : Bool) :
    List Effect × Except CheckoutError Unit :=
  match payment.paymentData with
  | none => ([], Except.ok ())
  | some pd =>
    match pd.instrumentId with
    | none => ([], Except.ok ())
    | some instrumentId =>
      if env.shouldVerify then
        match getSquareCardIdOrThrow env payment.methodId instrumentId with
        | (es, Except.error e) => (es, Except.error e)
        | (es, Except.ok cardId) =>
          let tok := env.verifyBuyer cardId SquareIntent.charge
          (es ++ [Effect.verifyBuyer cardId SquareIntent.charge,
            Effect.submitPayment
              { methodId := payment.methodId
                payload := FormattedPayload.bigpayToken instrumentId
                  (if tok = "" then none else some tok)
                vaultPaymentInstrument := shouldSaveInstrument
                setAsDefaultStoredInstrument := shouldSetAsDefaultInstrument }],
            Except.ok ())
      else
        ([Effect.submitPayment
            { methodId := payment.methodId
              payload := FormattedPayload.bigpayToken instrumentId none
              vaultPaymentInstrument := shouldSaveInstrument
              setAsDefaultStoredInstrument := shouldSetAsDefaultInstrument }],
          Except.ok ())

/-- The non-vaulted tail of `execute`: tokenize, optionally verify the buyer
(tokenizing a second store-card nonce when the instrument is being saved),
then submit a `credit_card_token` payload.  The truthy checks on the optional
flags (`if (shouldSaveInstrument)`, `|| false`) are `Option.getD false`. -/
def tokenizePart (env : SquareV2Env) (payment : OrderPaymentRequestBody)
    (shouldSaveInstrument shouldSetAsDefaultInstrument : Option Bool) :
    List Effect × Except CheckoutError Unit :=
  let nonce := env.tokenize1
  if env.shouldVerify then
    if shouldSaveInstrument.getD false then
      let storeCardNonce := env.tokenize2
      ([Effect.tokenize, Effect.tokenize,
        Effect.verifyBuyer nonce SquareIntent.charge,
        Effect.verifyBuyer storeCardNonce SquareIntent.store,
        Effect.submitPayment
          { methodId := payment.methodId
            payload := FormattedPayload.creditCardToken
              (TokenValue.verifiedWithStore nonce storeCardNonce
                (env.verifyBuyer nonce SquareIntent.charge)
                (env.verifyBuyer storeCardNonce SquareIntent.store))
            vaultPaymentInstrument := shouldSaveInstrument.getD false
            setAsDefaultStoredInstrument := shouldSetAsDefaultInstrument.getD false }],
        Except.ok ())
    else
      ([Effect.tokenize,
        Effect.verifyBuyer nonce SquareIntent.charge,
        Effect.submitPayment
          { methodId := payment.methodId
            payload := FormattedPayload.creditCardToken
              (TokenValue.verified nonce (env.verifyBuyer nonce SquareIntent.charge))
            vaultPaymentInstrument := shouldSaveInstrument.getD false
            setAsDefaultStoredInstrument := shouldSetAsDefaultInstrument.getD false }],
        Except.ok ())
  else
    ([Effect.tokenize,
      Effect.submitPayment
        { methodId := payment.methodId
          payload := FormattedPayload.creditCardToken (TokenValue.plain nonce)
          vaultPaymentInstrument := shouldSaveInstrument.getD false
          setAsDefaultStoredInstrument := shouldSetAsDefaultInstrument.getD false }],
      Except.ok ())

/-- `SquareV2PaymentStrategy.execute`: validates that `payment` is present
(failing with `PaymentArgumentInvalidError(['payment'])` before any effect),
reads the hosted-instrument flags, submits the order, then either takes the
vaulted-instrument path or the tokenize/verify path. -/
def execute (env : SquareV2Env) (req : OrderRequestBody) :
    List Effect × Except CheckoutError Unit :=
  match req.payment with
  | none => ([], Except.error (CheckoutError.paymentArgumentInvalid ["payment"]))
  | some payment =>
    let flags : Option Bool × Option Bool :=
      if isHostedInstrumentLike payment.paymentData then
        match payment.paymentData with
        | some pd => (pd.shouldSaveInstrument, pd.shouldSetAsDefaultInstrument)
        | none => (some false, some false)
      else (some false, some false)
    let rest : List Effect × Except CheckoutError Unit :=
      match payment.paymentData with
      | some pd =>
        if isVaultedInstrument pd then
          processWithVaultedInstrument env payment
            (flags.1.getD false) (flags.2.getD false)
        else
          tokenizePart env payment flags.1 flags.2
      | none => tokenizePart env payment flags.1 flags.2
    (Effect.submitOrder :: rest.1, rest.2)

/-- `SquareV2PaymentStrategy.finalize`: rejects with
`OrderFinalizationNotRequiredError` regardless of the strategy state. -/
def finalize (_state : SquareV2Env) : Except CheckoutError Unit :=
  Except.error CheckoutError.orderFinalizationNotRequired

end SquareV2PaymentStrategy

/-! ## Wepay payment strategy -/

/-- Wepay payment data as the strategy manipulates it: the `riskToken` that
`execute` deep-merges into `paymentData.extraData` (the `extraData` nesting is
flattened here; other card fields are not read by the strategy). -/
structure WepayPaymentData where
  riskToken : Option String
deriving DecidableEq

/-- A Wepay order payment request; `methodId` is `none` when the merged
payload never carried one. -/
structure WepayPayment where
  methodId : Option String
  paymentData : Option WepayPaymentData
deriving DecidableEq

/-- A Wepay order request body: the optional `payment` field. -/
structure WepayOrderRequest where
  payment : Option WepayPayment
deriving DecidableEq

/-- Effects of the Wepay execute path: the risk-client vendor call and the
order/payment submissions performed by the base credit-card strategy. -/
inductive WEffect
  | getRiskToken
  | submitOrder
  | submitPayment (payment : WepayPayment)
deriving DecidableEq

namespace WepayPaymentStrategy

/-- Modelled from the spec: `CreditCardPaymentStrategy.execute` — the base
class of `WepayPaymentStrategy` — is not under `src/`.  Per the spec (§4.1,
§8), it validates that a payment payload is present, failing with an
argument-invalid error before any network call, and otherwise submits the
order and then the payment payload to the order service. -/
def creditCardExecute (req : WepayOrderRequest) :
    List WEffect × Except CheckoutError Unit :=
  match req.payment with
  | none => ([], Except.error (CheckoutError.paymentArgumentInvalid ["payment"]))
  | some p => ([WEffect.submitOrder, WEffect.submitPayment p], Except.ok ())

/-- The lodash `merge({}, payload, { payment: { paymentData: { extraData: {
riskToken } } } })` step of `WepayPaymentStrategy.execute`: a deep merge that
creates the `payment` and `paymentData` objects when absent and sets
`riskToken`, preserving existing fields. -/
def mergeRiskToken (payment : Option WepayPayment) (token : String) : WepayPayment :=
  match payment with
  | none => { methodId := none, paymentData := some { riskToken := some token } }
  | some p =>
    { p with
      paymentData := some
        (match p.paymentData with
          | none => { riskToken := some token }
          | some d => { d with riskToken := some token }) }

/-- `WepayPaymentStrategy.execute`: reads the risk token from the risk client
(a vendor-SDK call, performed first), merges it into the payload, and
delegates to `CreditCardPaymentStrategy.execute`. -/
def execute (riskToken : String) (req : WepayOrderRequest) :
    List WEffect × Except CheckoutError Unit :=
  let merged : WepayOrderRequest := { payment := some (mergeRiskToken req.payment riskToken) }
  let rest := creditCardExecute merged
  (WEffect.getRiskToken :: rest.1, rest.2)

/-- Modelled from the spec: `CreditCardPaymentStrategy.finalize` (not under
`src/`, and not overridden by `WepayPaymentStrategy`) always rejects with the
finalization-not-required error (spec §4.1, §8). -/
def creditCardFinalize (_state : Unit) : Except CheckoutError Unit :=
  Except.error CheckoutError.orderFinalizationNotRequired

/-- `WepayPaymentStrategy.finalize` is inherited unchanged from the base
credit-card strategy. -/
def finalize (state : Unit) : Except CheckoutError Unit :=
  creditCardFinalize state

end WepayPaymentStrategy

/-! ## Embedded checkout: storage flags and cookie-consent flow -/

/-- The two namespaced storage flags of the embedded checkout.  Each flag is
`true` when the key is present with a truthy value (the code only ever stores
the literal `true`); `removeItem` makes it `false`. -/
structure Storage where
  isCookieAllowed : Bool
  canRetryAllowCookie : Bool
deriving DecidableEq

/-- Path of the cookie-consent endpoint appended to the checkout origin. -/
def allowCookiePath : String := "/embedded-checkout/allow-cookie"

/-- Outcome of `_allowCookie`: either the returned promise resolves, or the
host page is navigated away via `location.replace` to the allow-cookie
endpoint (carrying the current `location.href` as return URL, whose
percent-encoding is abstracted) and the returned promise never settles. -/
inductive AllowCookieOutcome
  | resolved
  | navigatedNeverSettles (endpoint : String) (returnUrl : String)
deriving DecidableEq

/-- Result of `_allowCookie`: the updated storage and the outcome. -/
structure AllowCookieResult where
  storage : Storage
  outcome : AllowCookieOutcome
deriving DecidableEq

/-- `EmbeddedCheckout._allowCookie`: when `isCookieAllowed` is set, arms
`canRetryAllowCookie` and resolves; when unset, removes `canRetryAllowCookie`,
sets `isCookieAllowed`, and navigates the entire host page to the
allow-cookie endpoint with a return URL, returning a never-settling promise. -/
def allowCookie (origin href : String) (st : Storage) : AllowCookieResult :=
  if st.isCookieAllowed then
    { storage := { st with canRetryAllowCookie := true }
      outcome := AllowCookieOutcome.resolved }
  else
    { storage := { isCookieAllowed := true, canRetryAllowCookie := false }
      outcome := AllowCookieOutcome.navigatedNeverSettles (origin ++ allowCookiePath) href }

/-- The retry guard of `_retryAllowCookie`: the failure is a not-embeddable
error with subtype `missing_content`. -/
def isRetriableError : CheckoutError → Bool
  | CheckoutError.notEmbeddable _ NotEmbeddableSubtype.missingContent => true
  | _ => false

/-- Result of `_retryAllowCookie`: updated storage, and `none` when the method
rejects (retry not applicable). -/
structure RetryResult where
  storage : Storage
  outcome : Option AllowCookieOutcome
deriving DecidableEq

/-- `EmbeddedCheckout._retryAllowCookie`: when `canRetryAllowCookie` is set
and the failure is a missing-content not-embeddable error, clears both flags
and re-runs `_allowCookie`; otherwise rejects. -/
def retryAllowCookie (origin href : String) (st : Storage) (e : CheckoutError) :
    RetryResult :=
  if st.canRetryAllowCookie && isRetriableError e then
    let r := allowCookie origin href { isCookieAllowed := false, canRetryAllowCookie := false }
    { storage := r.storage, outcome := some r.outcome }
  else
    { storage := st, outcome := none }

/-! ## Embedded checkout: controller lifecycle -/

/-- UI/DOM/network side effects of the embedded-checkout controller, in
program order. -/
inductive UiEffect
  | listen
  | showIndicator
  | hideIndicator
  | navigateTo (endpoint returnUrl : String)
  | createFrameEff
  | configureStyles
  | triggerFrameError (e : CheckoutError)
  | stopListen
  | removeIframe
  | closeResizer
deriving DecidableEq

/-- How one `attach()` call settles: resolves with the same controller,
suspends forever because the host page navigated away, or rejects with the
original failure. -/
inductive AttachOutcome
  | resolvedSelf
  | pendingNavigation (endpoint returnUrl : String)
  | rejected (e : CheckoutError)
deriving DecidableEq

/-- Result of the `attach()` failure handler (`.catch` branch): updated
storage, the side effects it performed, and how the promise settles. -/
structure CatchResult where
  storage : Storage
  effects : List UiEffect
  outcome : AttachOutcome
deriving DecidableEq

/-- The `.catch` branch of `attach()`: tries `_retryAllowCookie`; when the
retry applies, the consent flow runs again (navigating away, never settling);
when it rejects, the controller triggers a `FrameError` event to its
listeners, hides the loading indicator, and re-raises the original failure. -/
def attachCatch (origin href : String) (st : Storage) (e : CheckoutError) :
    CatchResult :=
  let r := retryAllowCookie origin href st e
  match r.outcome with
  | some (AllowCookieOutcome.navigatedNeverSettles ep ru) =>
    { storage := r.storage
      effects := [UiEffect.navigateTo ep ru]
      outcome := AttachOutcome.pendingNavigation ep ru }
  | some AllowCookieOutcome.resolved =>
    { storage := r.storage, effects := [], outcome := AttachOutcome.resolvedSelf }
  | none =>
    { storage := r.storage
      effects := [UiEffect.triggerFrameError e, UiEffect.hideIndicator]
      outcome := AttachOutcome.rejected e }

/-- The live iframe element; `hasParent` records whether it is still in the
document (`parentNode` non-null). -/
structure Frame where
  hasParent : Bool
deriving DecidableEq

/-- Controller state: the `_isAttached` flag and the `_iframe` handle. -/
structure ControllerState where
  isAttached : Bool
  iframe : Option Frame
deriving DecidableEq

/-! ## Embedded checkout: iframe creation -/

/-- The data of a window message observed while waiting for the iframe:
its `type` tag, the `payload.message` text (read on `FRAME_ERROR`) and the
`payload.contentId` (read on `FRAME_LOADED`). -/
structure FrameMsgData where
  msgType : String
  message : String
  contentId : Option String
deriving DecidableEq

/-- One event observed during `_toResizableFrame`'s wait: a window message
(with its origin) or the firing of the load timer. -/
inductive FrameEvent
  | message (origin : String) (data : FrameMsgData)
  | timeout
deriving DecidableEq

/-- The rejection produced when the load timer fires first. -/
def contentLoadTimeoutError : CheckoutError :=
  CheckoutError.notEmbeddable
    "Unable to embed the iframe because the content could not be loaded."
    NotEmbeddableSubtype.unknownError

/-- The rejection produced when the container element cannot be found. -/
def missingContainerError : CheckoutError :=
  CheckoutError.notEmbeddable
    "Unable to embed the iframe because the container element could not be found."
    NotEmbeddableSubtype.missingContainer

/-- The resolved resizable-frame handle; records the height-calculation mode
chosen from the truthiness of `payload.contentId`. -/
structure FrameHandle where
  heightCalculationMethod : String
deriving DecidableEq

/-- `timeout` option resolution: `void 0 === o ? 6e4 : o` — sixty seconds by
default, in milliseconds. -/
def resolveTimeout (opt : Option Nat) : Nat :=
  opt.getD 60000

/-- Whether an event settles `_toResizableFrame`'s promise: the timer, or a
`FRAME_ERROR`/`FRAME_LOADED` message whose origin equals the iframe source
origin. -/
def settlesFrameWait (frameOrigin : String) : FrameEvent → Bool
  | FrameEvent.timeout => true
  | FrameEvent.message o d =>
    o = frameOrigin && (d.msgType = "FRAME_ERROR" || d.msgType = "FRAME_LOADED")

/-- `IframeEmbedder._toResizableFrame`: resolves or rejects on the first
settling event — the timer rejects with the content-load failure, a same-origin
`FRAME_ERROR` rejects with a missing-content failure carrying the
vendor-supplied `payload.message`, a same-origin `FRAME_LOADED` installs the
resizer and resolves; everything else is ignored.  `none` = still pending. -/
def toResizableFrame (frameOrigin : String) :
    List FrameEvent → Option (Except CheckoutError FrameHandle)
  | [] => none
  | FrameEvent.timeout :: _ => some (Except.error contentLoadTimeoutError)
  | FrameEvent.message o d :: rest =>
    if o = frameOrigin then
      if d.msgType = "FRAME_ERROR" then
        some (Except.error
          (CheckoutError.notEmbeddable d.message NotEmbeddableSubtype.missingContent))
      else if d.msgType = "FRAME_LOADED" then
        some (Except.ok
          { heightCalculationMethod :=
              if (d.contentId.getD "") = "" then "lowestElement" else "taggedElement" })
      else toResizableFrame frameOrigin rest
    else toResizableFrame frameOrigin rest

instance {ε α : Type} [DecidableEq ε] [DecidableEq α] : DecidableEq (Except ε α) :=
  fun a b =>
    match a, b with
    | Except.error e, Except.error e' =>
      if h : e = e' then isTrue (by rw [h]) else isFalse (fun hh => by cases hh; exact h rfl)
    | Except.ok x, Except.ok y =>
      if h : x = y then isTrue (by rw [h]) else isFalse (fun hh => by cases hh; exact h rfl)
    | Except.error _, Except.ok _ => isFalse (fun hh => by cases hh)
    | Except.ok _, Except.error _ => isFalse (fun hh => by cases hh)

/-- Result of `createFrame`: how the returned promise settles (if at all),
whether the iframe element was created, and whether it was removed from its
container again. -/
structure CreateFrameOutcome where
  result : Option (Except CheckoutError FrameHandle)
  iframeCreated : Bool
  iframeRemoved : Bool
deriving DecidableEq

/-- `IframeEmbedder.createFrame`: throws a missing-container failure when the
container element is absent; otherwise creates and appends the iframe and
waits via `_toResizableFrame`, removing the iframe from the container before
re-raising any rejection. -/
def createFrame (containerExists : Bool) (frameOrigin : String)
    (events : List FrameEvent) : CreateFrameOutcome :=
  if containerExists then
    match toResizableFrame frameOrigin events with
    | some (Except.error e) =>
      { result := some (Except.error e), iframeCreated := true, iframeRemoved := true }
    | some (Except.ok h) =>
      { result := some (Except.ok h), iframeCreated := true, iframeRemoved := false }
    | none => { result := none, iframeCreated := true, iframeRemoved := false }
  else
    { result := some (Except.error missingContainerError)
      iframeCreated := false, iframeRemoved := false }

/-! ## Embedded checkout: attach/detach -/

/-- Environment of one `attach()` run: the checkout origin and current page
location, the storage contents, the outcome of `_attemptLogin` (the resolved
checkout URL, or an invalid-login-token failure), and the iframe-creation
inputs. -/
structure AttachEnv where
  origin : String
  href : String
  storage : Storage
  login : Except CheckoutError String
  containerExists : Bool
  frameOrigin : String
  frameEvents : List FrameEvent

/-- Result of one `attach()` run: controller state, storage, the effect trace,
and how the returned promise settles (`none` = still pending, which happens
only while the frame wait has seen no settling event). -/
structure AttachStep where
  state : ControllerState
  storage : Storage
  effects : List UiEffect
  outcome : Option AttachOutcome
deriving DecidableEq

/-- `EmbeddedCheckout.attach`: resolves immediately with the same controller
when already attached; otherwise marks attached, starts listening, shows the
loading indicator, runs the cookie-consent check, resolves the final URL,
creates the iframe, configures styles and hides the indicator on success, and
on failure reverts to detached and runs the `.catch` handler. -/
def attach (env : AttachEnv) (c : ControllerState) : AttachStep :=
  if c.isAttached then
    { state := c, storage := env.storage, effects := []
      outcome := some AttachOutcome.resolvedSelf }
  else
    let c1 : ControllerState := { c with isAttached := true }
    let pre : List UiEffect := [UiEffect.listen, UiEffect.showIndicator]
    let ac := allowCookie env.origin env.href env.storage
    match ac.outcome with
    | AllowCookieOutcome.navigatedNeverSettles ep ru =>
      { state := c1, storage := ac.storage
        effects := pre ++ [UiEffect.navigateTo ep ru]
        outcome := some (AttachOutcome.pendingNavigation ep ru) }
    | AllowCookieOutcome.resolved =>
      match env.login with
      | Except.error e =>
        let cr := attachCatch env.origin env.href ac.storage e
        { state := { c1 with isAttached := false }, storage := cr.storage
          effects := pre ++ cr.effects, outcome := some cr.outcome }
      | Except.ok _url =>
        let cf := createFrame env.containerExists env.frameOrigin env.frameEvents
        match cf.result with
        | none =>
          { state := c1, storage := ac.storage
            effects := pre ++ [UiEffect.createFrameEff], outcome := none }
        | some (Except.error e) =>
          let cr := attachCatch env.origin env.href ac.storage e
          { state := { c1 with isAttached := false }, storage := cr.storage
            effects := pre ++ [UiEffect.createFrameEff] ++ cr.effects
            outcome := some cr.outcome }
        | some (Except.ok _h) =>
          { state := { c1 with iframe := some { hasParent := true } }
            storage := ac.storage
            effects := pre ++ [UiEffect.createFrameEff, UiEffect.configureStyles,
              UiEffect.hideIndicator]
            outcome := some AttachOutcome.resolvedSelf }

/-- `EmbeddedCheckout.detach`: a no-op unless attached; otherwise clears the
attached flag, stops the message listener, and — when the iframe is still in
the document — removes it and closes its resize controller. -/
def detach (c : ControllerState) : ControllerState × List UiEffect :=
  if c.isAttached then
    match c.iframe with
    | some f =>
      if f.hasParent then
        ({ isAttached := false, iframe := some { hasParent := false } },
          [UiEffect.stopListen, UiEffect.removeIframe, UiEffect.closeResizer])
      else ({ isAttached := false, iframe := c.iframe }, [UiEffect.stopListen])
    | none => ({ isAttached := false, iframe := none }, [UiEffect.stopListen])
  else (c, [])

/-- Occurrences of the iframe-creation effect in a trace. -/
def countCreateFrame : List UiEffect → Nat
  | [] => 0
  | UiEffect.createFrameEff :: rest => countCreateFrame rest + 1
  | _ :: rest => countCreateFrame rest

/-! ## Embedded checkout: window message listener -/

/-- Data of a message seen by `IframeEventListener._handleMessage`; `msgType`
is `none` when the data has no `type` field (the JS `undefined`). -/
structure MsgData where
  msgType : Option String
deriving DecidableEq

/-- The inbound event types of the embedded-checkout message protocol. -/
def eventTypes : List String :=
  ["CHECKOUT_COMPLETE", "CHECKOUT_ERROR", "CHECKOUT_LOADED",
    "FRAME_ERROR", "FRAME_LOADED", "SIGNED_OUT"]

/-- `IframeEventListener.addListener`: pushes a listener (identified here by a
number) onto the per-type list, creating the list on first registration.
Listener lists are an association list keyed by event type. -/
def addListener : List (String × List Nat) → String → Nat → List (String × List Nat)
  | [], t, i => [(t, [i])]
  | (k, l) :: rest, t, i =>
    if k = t then (k, l ++ [i]) :: rest else (k, l) :: addListener rest t i

/-- Lookup of the listener list registered for an event type. -/
def lookupListeners : List (String × List Nat) → String → Option (List Nat)
  | [], _ => none
  | (k, l) :: rest, t => if k = t then some l else lookupListeners rest t

/-- The property key a message's `type` turns into when used as an index:
a missing field (`undefined`) coerces to the string key `"undefined"`. -/
def typeKey : Option String → String
  | some s => s
  | none => "undefined"

/-- The `isEventType` guard as `_handleMessage` applies it:
`t.data.type === e` with `e := t.data.type`. -/
def isType (d : MsgData) (t : Option String) : Bool :=
  d.msgType == t

/-- `IframeEventListener.trigger`: invokes the listeners registered for the
message's type, in order; no registered list means nothing is invoked.
Returns the identifiers of the invoked listeners in invocation order. -/
def trigger (ls : List (String × List Nat)) (d : MsgData) : List Nat :=
  (lookupListeners ls (typeKey d.msgType)).getD []

/-- `IframeEventListener._handleMessage`: dispatches via `trigger` only when
the message origin equals the expected source origin and the type guard
holds. -/
def handleMessage (sourceOrigin : String) (ls : List (String × List Nat))
    (origin : String) (d : MsgData) : List Nat :=
  if origin = sourceOrigin && isType d d.msgType then trigger ls d else []

/-- A sequence of `addListener` registrations applied in order. -/
def registerAll (ls : List (String × List Nat)) (regs : List (String × Nat)) :
    List (String × List Nat) :=
  regs.foldl (fun s r => addListener s r.1 r.2) ls

/-! ## Helper lemmas -/

theorem lookupListeners_addListener (ls : List (String × List Nat))
    (t0 t : String) (i : Nat) :
    (lookupListeners (addListener ls t0 i) t).getD [] =
      (lookupListeners ls t).getD [] ++ (if t0 = t then [i] else []) := by
  induction ls with
  | nil =>
    by_cases h : t0 = t
    · subst h; simp [addListener, lookupListeners]
    · simp [addListener, lookupListeners, h]
  | cons p rest ih =>
    obtain ⟨k, l⟩ := p
    by_cases hk0 : k = t0
    · subst hk0
      by_cases hkt : k = t
      · subst hkt
        simp [addListener, lookupListeners]
      · simp [addListener, lookupListeners, hkt]
    · by_cases hkt : k = t
      · subst hkt
        have ht0 : ¬t0 = k := fun h => hk0 h.symm
        simp [addListener, lookupListeners, hk0, ht0]
      · simp [addListener, lookupListeners, hk0, hkt, ih]

theorem lookupListeners_registerAll (regs : List (String × Nat)) :
    ∀ (ls : List (String × List Nat)) (t : String),
      (lookupListeners (registerAll ls regs) t).getD [] =
        (lookupListeners ls t).getD [] ++
          (regs.filter (fun r => r.1 == t)).map (fun r => r.2) := by
  induction regs with
  | nil => intro ls t; simp [registerAll]
  | cons r rest ih =>
    intro ls t
    have hfold : registerAll ls (r :: rest) = registerAll (addListener ls r.1 r.2) rest := rfl
    rw [hfold, ih, lookupListeners_addListener]
    by_cases h : r.1 = t
    · simp [List.filter_cons, h, List.append_assoc]
    · simp [List.filter_cons, h]

theorem execute_trace_shape (env : SquareV2Env) (req : OrderRequestBody) :
    (SquareV2PaymentStrategy.execute env req).1 = [] ∨
      ∃ rest, (SquareV2PaymentStrategy.execute env req).1 = Effect.submitOrder :: rest := by
  obtain ⟨paymentOpt⟩ := req
  cases paymentOpt with
  | none => left; rfl
  | some payment => right; exact ⟨_, rfl⟩

theorem attachCatch_countCreateFrame (origin href : String) (st : Storage)
    (e : CheckoutError) :
    countCreateFrame (attachCatch origin href st e).effects = 0 := by
  unfold attachCatch
  rcases h : (retryAllowCookie origin href st e).outcome with _ | oc
  · simp only [h]; simp [countCreateFrame]
  · cases oc <;> (simp only [h]; simp [countCreateFrame])

/-! ## Sample inputs for the concrete witnesses -/

/-- A sample strategy environment: 3-D-Secure off, fixed vendor outcomes. -/
def sampleSquareEnv : SquareV2Env :=
  { shouldVerify := false
    tokenize1 := "nonce-1"
    tokenize2 := "nonce-2"
    verifyBuyer := fun _ _ => "verify-token"
    cardIdFor := fun _ _ => none }

/-- A sample strategy environment with 3-D-Secure on and no resolvable card
id. -/
def sampleSquareEnvVerify : SquareV2Env :=
  { sampleSquareEnv with shouldVerify := true }

/-- A sample vaulted-instrument payment request body. -/
def sampleVaultedPayment : OrderPaymentRequestBody :=
  { methodId := "squarev2"
    paymentData := some
      { instrumentId := some "bigpay-token-1"
        shouldSaveInstrument := none
        shouldSetAsDefaultInstrument := none } }

/-- A sample missing-content failure as the iframe reports it. -/
def sampleMissingContentError : CheckoutError :=
  CheckoutError.notEmbeddable "The checkout content is missing."
    NotEmbeddableSubtype.missingContent

/-- A sample attach environment: cookie already allowed, login URL resolved,
container present, and a same-origin frame-loaded message arriving. -/
def sampleAttachEnv : AttachEnv :=
  { origin := "https://store.example.com"
    href := "https://merchant.example.com/checkout"
    storage := { isCookieAllowed := true, canRetryAllowCookie := false }
    login := Except.ok "https://store.example.com/embedded-checkout"
    containerExists := true
    frameOrigin := "https://store.example.com"
    frameEvents := [FrameEvent.message "https://store.example.com"
      { msgType := "FRAME_LOADED", message := "", contentId := none }] }

/-! ## Claim theorems -/

/-- C1 (counterexample): the claim that *every* payment strategy rejects an
order request without a `payment` field with an argument-invalid error before
any network or vendor-SDK call fails for `WepayPaymentStrategy`: its `execute`
calls the risk client first, and the lodash merge always injects a `payment`
object into the payload, so the base strategy's validation never fires and
the run proceeds rather than rejecting. -/
theorem wepayExecute_missingPayment_not_rejected :
    (WepayPaymentStrategy.execute "risk-token" { payment := none }).1.head? =
        some WEffect.getRiskToken ∧
    (WepayPaymentStrategy.execute "risk-token" { payment := none }).2 ≠
        Except.error (CheckoutError.paymentArgumentInvalid ["payment"]) := by
  exact ⟨rfl, by decide⟩

/-- C1 (amended): `SquareV2PaymentStrategy.execute` with an absent `payment`
field rejects with `PaymentArgumentInvalidError(['payment'])` before any
network or vendor-SDK call (empty effect trace); `WepayPaymentStrategy.execute`
instead calls the risk-token vendor SDK first and merges a riskToken-bearing
`payment` object into the payload, so the absent-payment validation does not
trigger and the run proceeds. -/
theorem execute_missingPayment_validation (env : SquareV2Env) (riskToken : String) :
    SquareV2PaymentStrategy.execute env { payment := none } =
        ([], Except.error (CheckoutError.paymentArgumentInvalid ["payment"])) ∧
    (WepayPaymentStrategy.execute riskToken { payment := none }).1.head? =
        some WEffect.getRiskToken ∧
    (WepayPaymentStrategy.execute riskToken { payment := none }).2 = Except.ok () :=
  ⟨rfl, rfl, rfl⟩

/-- C9: `finalize()` always rejects with the order-finalization-not-required
error, for both strategies and regardless of state. -/
theorem finalize_always_rejects (s : SquareV2Env) (t : Unit) :
    SquareV2PaymentStrategy.finalize s =
        Except.error CheckoutError.orderFinalizationNotRequired ∧
    WepayPaymentStrategy.finalize t =
        Except.error CheckoutError.orderFinalizationNotRequired :=
  ⟨rfl, rfl⟩

/-- C2 (counterexample): the claim that `_allowCookie` with `isCookieAllowed`
unset *arms* the retry flag is false — on that branch the code removes
`canRetryAllowCookie` (it even clears a previously armed flag). -/
theorem allowCookie_unset_does_not_arm_retry :
    ¬ ((allowCookie "https://store.example.com" "https://merchant.example.com/checkout"
        { isCookieAllowed := false, canRetryAllowCookie := true
        }).storage.canRetryAllowCookie = true) := by
  decide

/-- C2 (amended): `_allowCookie` with `isCookieAllowed` unset clears the retry
flag, sets the allowed flag, navigates the entire host page to the
allow-cookie endpoint with a return URL, and returns a never-settling
promise; with the flag already set it arms the retry flag and resolves
without navigating. -/
theorem allowCookie_spec (origin href : String) (st : Storage) :
    (st.isCookieAllowed = false →
      allowCookie origin href st =
        { storage := { isCookieAllowed := true, canRetryAllowCookie := false }
          outcome := AllowCookieOutcome.navigatedNeverSettles
            (origin ++ allowCookiePath) href }) ∧
    (st.isCookieAllowed = true →
      allowCookie origin href st =
        { storage := { isCookieAllowed := true, canRetryAllowCookie := true }
          outcome := AllowCookieOutcome.resolved }) := by
  obtain ⟨a, r⟩ := st
  constructor
  · intro h
    cases h
    simp [allowCookie]
  · intro h
    cases h
    simp [allowCookie]

/-- Witness for the amended C2 theorem at concrete inputs, one per branch. -/
theorem allowCookie_spec_witness :
    allowCookie "https://store.example.com" "https://merchant.example.com/checkout"
        { isCookieAllowed := false, canRetryAllowCookie := true } =
      { storage := { isCookieAllowed := true, canRetryAllowCookie := false }
        outcome := AllowCookieOutcome.navigatedNeverSettles
          ("https://store.example.com" ++ allowCookiePath)
          "https://merchant.example.com/checkout" } ∧
    allowCookie "https://store.example.com" "https://merchant.example.com/checkout"
        { isCookieAllowed := true, canRetryAllowCookie := false } =
      { storage := { isCookieAllowed := true, canRetryAllowCookie := true }
        outcome := AllowCookieOutcome.resolved } :=
  ⟨(allowCookie_spec "https://store.example.com" "https://merchant.example.com/checkout"
      { isCookieAllowed := false, canRetryAllowCookie := true }).1 rfl,
    (allowCookie_spec "https://store.example.com" "https://merchant.example.com/checkout"
      { isCookieAllowed := true, canRetryAllowCookie := false }).2 rfl⟩

/-- C10: `detach()` on a controller that is not attached is a no-op — state
unchanged and no effects; on an attached controller with a live iframe it
stops the message listener, removes the iframe from the document, closes its
resize controller, and transitions to detached. -/
theorem detach_spec (c : ControllerState) :
    (c.isAttached = false → detach c = (c, [])) ∧
    (c.isAttached = true → c.iframe = some { hasParent := true } →
      detach c =
        ({ isAttached := false, iframe := some { hasParent := false } },
          [UiEffect.stopListen, UiEffect.removeIframe, UiEffect.closeResizer])) := by
  obtain ⟨a, f⟩ := c
  constructor
  · intro h
    cases h
    simp [detach]
  · intro h hf
    cases h
    cases hf
    simp [detach]

/-- Witness for C10 at concrete controller states, one per branch. -/
theorem detach_spec_witness :
    detach { isAttached := false, iframe := none } =
      ({ isAttached := false, iframe := none }, []) ∧
    detach { isAttached := true, iframe := some { hasParent := true } } =
      ({ isAttached := false, iframe := some { hasParent := false } },
        [UiEffect.stopListen, UiEffect.removeIframe, UiEffect.closeResizer]) :=
  ⟨(detach_spec { isAttached := false, iframe := none }).1 rfl,
    (detach_spec { isAttached := true, iframe := some { hasParent := true } }).2 rfl rfl⟩

theorem countCreateFrame_cons (e : UiEffect) (l : List UiEffect) :
    countCreateFrame (e :: l) =
      countCreateFrame l + (if e = UiEffect.createFrameEff then 1 else 0) := by
  cases e <;> simp [countCreateFrame]

/-- C3: when `attach()` fails, the failure handler performs a cookie-consent
retry if and only if the failure is a not-embeddable error with subtype
missing-content and `canRetryAllowCookie` was armed — clearing the armed flag
and navigating away without emitting a frame-error event; when the retry is
not applicable (in particular on a second identical failure after a retry),
it emits a frame-error event, hides the loading indicator, and re-raises the
original failure; and any rejected `attach()` run leaves the controller
detached. -/
theorem attach_failure_retry_spec (origin href : String) (st : Storage)
    (e : CheckoutError) :
    (st.canRetryAllowCookie = true → isRetriableError e = true →
      attachCatch origin href st e =
        { storage := { isCookieAllowed := true, canRetryAllowCookie := false }
          effects := [UiEffect.navigateTo (origin ++ allowCookiePath) href]
          outcome := AttachOutcome.pendingNavigation (origin ++ allowCookiePath) href } ∧
      attachCatch origin href (attachCatch origin href st e).storage e =
        { storage := { isCookieAllowed := true, canRetryAllowCookie := false }
          effects := [UiEffect.triggerFrameError e, UiEffect.hideIndicator]
          outcome := AttachOutcome.rejected e }) ∧
    (st.canRetryAllowCookie = false ∨ isRetriableError e = false →
      attachCatch origin href st e =
        { storage := st
          effects := [UiEffect.triggerFrameError e, UiEffect.hideIndicator]
          outcome := AttachOutcome.rejected e }) ∧
    (∀ (env : AttachEnv) (c : ControllerState) (e' : CheckoutError),
      (attach env c).outcome = some (AttachOutcome.rejected e') →
      (attach env c).state.isAttached = false) := by
  refine ⟨?_, ?_, ?_⟩
  · intro h1 h2
    constructor
    · simp [attachCatch, retryAllowCookie, allowCookie, h1, h2]
    · simp [attachCatch, retryAllowCookie, allowCookie, h1, h2]
  · intro h
    rcases h with h | h <;>
      simp [attachCatch, retryAllowCookie, h]
  · intro env c e' h
    unfold attach at h ⊢
    by_cases hc : c.isAttached = true
    · simp [hc] at h
    · simp only [hc, Bool.false_eq_true, if_false] at h ⊢
      rcases hac : (allowCookie env.origin env.href env.storage).outcome with _ | ⟨ep, ru⟩
      · rcases hl : env.login with le | lu
        · simp [hac, hl]
        · rcases hcf : (createFrame env.containerExists env.frameOrigin env.frameEvents).result
            with _ | cfr
          · simp [hac, hl, hcf] at h
          · rcases cfr with cfe | cfh
            · simp [hac, hl, hcf]
            · simp [hac, hl, hcf] at h
      · simp [hac] at h

/-- Witness for C3: a missing-content failure with the retry flag armed
navigates away (retrying the consent flow) and clears the flag; the same
failure against the resulting storage is re-raised with a frame-error event
and the indicator hidden. -/
theorem attach_failure_retry_spec_witness :
    attachCatch "https://store.example.com" "https://merchant.example.com/checkout"
        { isCookieAllowed := true, canRetryAllowCookie := true } sampleMissingContentError =
      { storage := { isCookieAllowed := true, canRetryAllowCookie := false }
        effects := [UiEffect.navigateTo ("https://store.example.com" ++ allowCookiePath)
          "https://merchant.example.com/checkout"]
        outcome := AttachOutcome.pendingNavigation
          ("https://store.example.com" ++ allowCookiePath)
          "https://merchant.example.com/checkout" } ∧
    attachCatch "https://store.example.com" "https://merchant.example.com/checkout"
        { isCookieAllowed := true, canRetryAllowCookie := false } sampleMissingContentError =
      { storage := { isCookieAllowed := true, canRetryAllowCookie := false }
        effects := [UiEffect.triggerFrameError sampleMissingContentError,
          UiEffect.hideIndicator]
        outcome := AttachOutcome.rejected sampleMissingContentError } :=
  ⟨((attach_failure_retry_spec "https://store.example.com"
      "https://merchant.example.com/checkout"
      { isCookieAllowed := true, canRetryAllowCookie := true }
      sampleMissingContentError).1 rfl rfl).1,
    (attach_failure_retry_spec "https://store.example.com"
      "https://merchant.example.com/checkout"
      { isCookieAllowed := true, canRetryAllowCookie := false }
      sampleMissingContentError).2.1 (Or.inl rfl)⟩

/-- C4: `attach()` on an already-attached controller resolves with the same
controller instance, leaves state and storage untouched, and performs no
effects (in particular creates no second iframe); and every `attach()` run
creates at most one iframe. -/
theorem attach_idempotent_when_attached (env : AttachEnv) (c : ControllerState)
    (h : c.isAttached = true) :
    attach env c =
      { state := c, storage := env.storage, effects := []
        outcome := some AttachOutcome.resolvedSelf } ∧
    (∀ (env' : AttachEnv) (c' : ControllerState),
      countCreateFrame (attach env' c').effects ≤ 1) := by
  constructor
  · simp [attach, h]
  · intro env' c'
    unfold attach
    by_cases hc : c'.isAttached = true
    · simp [hc, countCreateFrame]
    · simp only [hc, Bool.false_eq_true, if_false]
      rcases hac : (allowCookie env'.origin env'.href env'.storage).outcome with _ | ⟨ep, ru⟩
      · rcases hl : env'.login with le | lu
        · simp [hac, hl, countCreateFrame_cons, countCreateFrame,
            attachCatch_countCreateFrame]
        · rcases hcf : (createFrame env'.containerExists env'.frameOrigin
            env'.frameEvents).result with _ | cfr
          · simp [hac, hl, hcf, countCreateFrame_cons, countCreateFrame]
          · rcases cfr with cfe | cfh
            · simp [hac, hl, hcf, countCreateFrame_cons, countCreateFrame,
                attachCatch_countCreateFrame]
            · simp [hac, hl, hcf, countCreateFrame_cons, countCreateFrame]
      · simp [hac, countCreateFrame_cons, countCreateFrame]

/-- Witness for C4: an attached controller stays as it is and `attach`
resolves with it, with an empty effect trace. -/
theorem attach_idempotent_when_attached_witness :
    attach sampleAttachEnv { isAttached := true, iframe := some { hasParent := true } } =
      { state := { isAttached := true, iframe := some { hasParent := true } }
        storage := { isCookieAllowed := true, canRetryAllowCookie := false }
        effects := []
        outcome := some AttachOutcome.resolvedSelf } :=
  (attach_idempotent_when_attached sampleAttachEnv
    { isAttached := true, iframe := some { hasParent := true } } rfl).1

theorem toResizableFrame_skip (frameOrigin : String) (ev : FrameEvent)
    (rest : List FrameEvent) (h : settlesFrameWait frameOrigin ev = false) :
    toResizableFrame frameOrigin (ev :: rest) = toResizableFrame frameOrigin rest := by
  cases ev with
  | timeout => simp [settlesFrameWait] at h
  | message o d =>
    by_cases ho : o = frameOrigin
    · simp [settlesFrameWait, ho] at h
      simp [toResizableFrame, ho, h.1, h.2]
    · simp [toResizableFrame, ho]

theorem toResizableFrame_timeout_after_nonsettling (frameOrigin : String)
    (pre rest : List FrameEvent)
    (h : ∀ ev ∈ pre, settlesFrameWait frameOrigin ev = false) :
    toResizableFrame frameOrigin (pre ++ FrameEvent.timeout :: rest) =
      some (Except.error contentLoadTimeoutError) := by
  induction pre with
  | nil => rfl
  | cons ev pre ih =>
    rw [List.cons_append, toResizableFrame_skip frameOrigin ev _ (h ev (by simp))]
    exact ih (fun e he => h e (by simp [he]))

/-- C5: during iframe creation, if no settling message arrives before the
timer (default sixty seconds) fires, the promise rejects with the
content-could-not-be-loaded not-embeddable failure; a same-origin frame-error
message rejects immediately with a missing-content failure carrying the
vendor-supplied message text; and whenever the wait rejects, the created
iframe element is removed from its container before the error propagates. -/
theorem createFrame_rejection_spec (frameOrigin : String)
    (events pre rest : List FrameEvent) (d : FrameMsgData) :
    ((∀ ev ∈ pre, settlesFrameWait frameOrigin ev = false) →
      toResizableFrame frameOrigin (pre ++ FrameEvent.timeout :: rest) =
        some (Except.error contentLoadTimeoutError)) ∧
    (d.msgType = "FRAME_ERROR" →
      toResizableFrame frameOrigin (FrameEvent.message frameOrigin d :: rest) =
        some (Except.error (CheckoutError.notEmbeddable d.message
          NotEmbeddableSubtype.missingContent))) ∧
    (∀ e, (createFrame true frameOrigin events).result = some (Except.error e) →
      (createFrame true frameOrigin events).iframeRemoved = true) ∧
    resolveTimeout none = 60000 := by
  refine ⟨toResizableFrame_timeout_after_nonsettling frameOrigin pre rest, ?_, ?_, rfl⟩
  · intro h
    simp [toResizableFrame, h]
  · intro e he
    unfold createFrame at he ⊢
    rcases htf : toResizableFrame frameOrigin events with _ | r
    · simp [htf] at he
    · rcases r with er | okh
      · simp [htf]
      · simp [htf] at he

/-- Witness for C5: a foreign-origin message does not settle the wait and the
timer then rejects; a same-origin frame-error message rejects with the
vendor-supplied text; a timeout rejection removes the iframe. -/
theorem createFrame_rejection_spec_witness :
    toResizableFrame "https://store.example.com"
        ([FrameEvent.message "https://attacker.example.com"
            { msgType := "FRAME_LOADED", message := "", contentId := none }] ++
          FrameEvent.timeout :: []) =
      some (Except.error contentLoadTimeoutError) ∧
    toResizableFrame "https://store.example.com"
        (FrameEvent.message "https://store.example.com"
            { msgType := "FRAME_ERROR", message := "Vendor says no.", contentId := none }
          :: []) =
      some (Except.error (CheckoutError.notEmbeddable "Vendor says no."
        NotEmbeddableSubtype.missingContent)) ∧
    (createFrame true "https://store.example.com" [FrameEvent.timeout]).iframeRemoved
      = true :=
  ⟨(createFrame_rejection_spec "https://store.example.com" [FrameEvent.timeout]
        [FrameEvent.message "https://attacker.example.com"
          { msgType := "FRAME_LOADED", message := "", contentId := none }] []
        { msgType := "FRAME_ERROR", message := "Vendor says no.", contentId := none }).1
      (by decide),
    (createFrame_rejection_spec "https://store.example.com" [FrameEvent.timeout]
        [] []
        { msgType := "FRAME_ERROR", message := "Vendor says no.", contentId := none }).2.1
      rfl,
    (createFrame_rejection_spec "https://store.example.com" [FrameEvent.timeout]
        [] []
        { msgType := "FRAME_ERROR", message := "Vendor says no.", contentId := none }).2.2.1
      contentLoadTimeoutError rfl⟩

/-- C6: the window-level message handler dispatches nothing when the origin
differs from the expected source origin; an accepted message is fanned out
exactly to the listeners registered for its type, in registration order; and
a message whose type is not among the recognized event types (in particular a
missing type field) reaches no listener registered under those types. -/
theorem handleMessage_dispatch_spec (src origin : String)
    (regs : List (String × Nat)) (d : MsgData) :
    (handleMessage src (registerAll [] regs) origin d =
      if origin = src then
        (regs.filter (fun r => r.1 == typeKey d.msgType)).map (fun r => r.2)
      else []) ∧
    (origin ≠ src → handleMessage src (registerAll [] regs) origin d = []) ∧
    ((∀ r ∈ regs, r.1 ∈ eventTypes) → typeKey d.msgType ∉ eventTypes →
      handleMessage src (registerAll [] regs) origin d = []) := by
  have hmain : handleMessage src (registerAll [] regs) origin d =
      if origin = src then
        (regs.filter (fun r => r.1 == typeKey d.msgType)).map (fun r => r.2)
      else [] := by
    unfold handleMessage
    have hguard : isType d d.msgType = true := by simp [isType]
    rw [hguard]
    by_cases ho : origin = src
    · unfold trigger
      rw [lookupListeners_registerAll]
      simp [lookupListeners, ho]
    · simp [ho]
  refine ⟨hmain, ?_, ?_⟩
  · intro h
    rw [hmain, if_neg h]
  · intro hreg hnot
    rw [hmain]
    have hfil : regs.filter (fun r => r.1 == typeKey d.msgType) = [] := by
      rw [List.filter_eq_nil_iff]
      intro r hr
      simp only [beq_iff_eq]
      intro hEq
      exact hnot (hEq ▸ hreg r hr)
    rw [hfil]
    simp

/-- Witness for C6: an origin mismatch dispatches nothing; a matching origin
fans out to the two listeners registered for the type in registration order;
a message without a type field reaches no listener. -/
theorem handleMessage_dispatch_spec_witness :
    handleMessage "https://store.example.com"
        (registerAll [] [("FRAME_LOADED", 0), ("CHECKOUT_COMPLETE", 1), ("FRAME_LOADED", 2)])
        "https://attacker.example.com" { msgType := some "FRAME_LOADED" } = [] ∧
    handleMessage "https://store.example.com"
        (registerAll [] [("FRAME_LOADED", 0), ("CHECKOUT_COMPLETE", 1), ("FRAME_LOADED", 2)])
        "https://store.example.com" { msgType := some "FRAME_LOADED" } = [0, 2] ∧
    handleMessage "https://store.example.com"
        (registerAll [] [("FRAME_LOADED", 0)])
        "https://store.example.com" { msgType := none } = [] :=
  ⟨(handleMessage_dispatch_spec "https://store.example.com" "https://attacker.example.com"
      [("FRAME_LOADED", 0), ("CHECKOUT_COMPLETE", 1), ("FRAME_LOADED", 2)]
      { msgType := some "FRAME_LOADED" }).2.1 (by decide),
    by
      rw [(handleMessage_dispatch_spec "https://store.example.com" "https://store.example.com"
        [("FRAME_LOADED", 0), ("CHECKOUT_COMPLETE", 1), ("FRAME_LOADED", 2)]
        { msgType := some "FRAME_LOADED" }).1]
      decide,
    (handleMessage_dispatch_spec "https://store.example.com" "https://store.example.com"
      [("FRAME_LOADED", 0)] { msgType := none }).2.2 (by decide) (by decide)⟩

/-- C7: for an order request whose payment data is a vaulted instrument,
`execute` never calls the tokenization vendor SDK; every payment it submits
carries a `bigpay_token` payload for that instrument; and when 3-D-Secure
verification is required, the card id is resolved by reloading the payment
method keyed by method id and instrument id, failing with
`PaymentArgumentInvalidError(['cardId'])` when no card id resolves. -/
theorem execute_vaulted_instrument_spec (env : SquareV2Env)
    (payment : OrderPaymentRequestBody) (pd : PaymentData) (instrumentId : String)
    (hpd : payment.paymentData = some pd) (hid : pd.instrumentId = some instrumentId) :
    (Effect.tokenize ∉ (SquareV2PaymentStrategy.execute env { payment := some payment }).1) ∧
    (∀ b, Effect.submitPayment b ∈
        (SquareV2PaymentStrategy.execute env { payment := some payment }).1 →
      ∃ t3, b.payload = FormattedPayload.bigpayToken instrumentId t3) ∧
    (env.shouldVerify = true →
      Effect.loadPaymentMethod payment.methodId instrumentId ∈
        (SquareV2PaymentStrategy.execute env { payment := some payment }).1 ∧
      ((env.cardIdFor payment.methodId instrumentId = none ∨
          env.cardIdFor payment.methodId instrumentId = some "") →
        (SquareV2PaymentStrategy.execute env { payment := some payment }).2 =
          Except.error (CheckoutError.paymentArgumentInvalid ["cardId"]))) := by
  rcases payment with ⟨mid, pdOpt⟩
  rcases pd with ⟨iidOpt, ssi, ssdi⟩
  dsimp only at hpd hid ⊢
  subst hpd
  subst hid
  cases hv : env.shouldVerify with
  | false =>
    refine ⟨?_, ?_, ?_⟩
    · simp [SquareV2PaymentStrategy.execute,
        SquareV2PaymentStrategy.processWithVaultedInstrument,
        isHostedInstrumentLike, isVaultedInstrument, hv]
    · intro b hb
      simp [SquareV2PaymentStrategy.execute,
        SquareV2PaymentStrategy.processWithVaultedInstrument,
        isHostedInstrumentLike, isVaultedInstrument, hv] at hb
      subst hb
      exact ⟨none, rfl⟩
    · intro hcontra
      simp at hcontra
  | true =>
    rcases hcard : env.cardIdFor mid instrumentId with _ | c
    · refine ⟨?_, ?_, fun _ => ⟨?_, fun _ => ?_⟩⟩
      · simp [SquareV2PaymentStrategy.execute,
          SquareV2PaymentStrategy.processWithVaultedInstrument,
          SquareV2PaymentStrategy.getSquareCardIdOrThrow,
          isHostedInstrumentLike, isVaultedInstrument, hv, hcard]
      · intro b hb
        simp [SquareV2PaymentStrategy.execute,
          SquareV2PaymentStrategy.processWithVaultedInstrument,
          SquareV2PaymentStrategy.getSquareCardIdOrThrow,
          isHostedInstrumentLike, isVaultedInstrument, hv, hcard] at hb
      · simp [SquareV2PaymentStrategy.execute,
          SquareV2PaymentStrategy.processWithVaultedInstrument,
          SquareV2PaymentStrategy.getSquareCardIdOrThrow,
          isHostedInstrumentLike, isVaultedInstrument, hv, hcard]
      · simp [SquareV2PaymentStrategy.execute,
          SquareV2PaymentStrategy.processWithVaultedInstrument,
          SquareV2PaymentStrategy.getSquareCardIdOrThrow,
          isHostedInstrumentLike, isVaultedInstrument, hv, hcard]
    · by_cases hce : c = ""
      · subst hce
        refine ⟨?_, ?_, fun _ => ⟨?_, fun _ => ?_⟩⟩
        · simp [SquareV2PaymentStrategy.execute,
            SquareV2PaymentStrategy.processWithVaultedInstrument,
            SquareV2PaymentStrategy.getSquareCardIdOrThrow,
            isHostedInstrumentLike, isVaultedInstrument, hv, hcard]
        · intro b hb
          simp [SquareV2PaymentStrategy.execute,
            SquareV2PaymentStrategy.processWithVaultedInstrument,
            SquareV2PaymentStrategy.getSquareCardIdOrThrow,
            isHostedInstrumentLike, isVaultedInstrument, hv, hcard] at hb
        · simp [SquareV2PaymentStrategy.execute,
            SquareV2PaymentStrategy.processWithVaultedInstrument,
            SquareV2PaymentStrategy.getSquareCardIdOrThrow,
            isHostedInstrumentLike, isVaultedInstrument, hv, hcard]
        · simp [SquareV2PaymentStrategy.execute,
            SquareV2PaymentStrategy.processWithVaultedInstrument,
            SquareV2PaymentStrategy.getSquareCardIdOrThrow,
            isHostedInstrumentLike, isVaultedInstrument, hv, hcard]
      · refine ⟨?_, ?_, fun _ => ⟨?_, ?_⟩⟩
        · simp [SquareV2PaymentStrategy.execute,
            SquareV2PaymentStrategy.processWithVaultedInstrument,
            SquareV2PaymentStrategy.getSquareCardIdOrThrow,
            isHostedInstrumentLike, isVaultedInstrument, hv, hcard, hce]
        · intro b hb
          simp [SquareV2PaymentStrategy.execute,
            SquareV2PaymentStrategy.processWithVaultedInstrument,
            SquareV2PaymentStrategy.getSquareCardIdOrThrow,
            isHostedInstrumentLike, isVaultedInstrument, hv, hcard, hce] at hb
          subst hb
          exact ⟨_, rfl⟩
        · simp [SquareV2PaymentStrategy.execute,
            SquareV2PaymentStrategy.processWithVaultedInstrument,
            SquareV2PaymentStrategy.getSquareCardIdOrThrow,
            isHostedInstrumentLike, isVaultedInstrument, hv, hcard, hce]
        · intro hbad
          rcases hbad with hbad | hbad
          · exact Option.noConfusion hbad
          · injection hbad with hbad
            exact absurd hbad hce

/-- Witness for C7: with 3-D-Secure on and no resolvable card id, a vaulted
payment performs no tokenization and `execute` fails with the cardId
argument-invalid error. -/
theorem execute_vaulted_instrument_spec_witness :
    Effect.tokenize ∉
      (SquareV2PaymentStrategy.execute sampleSquareEnvVerify
        { payment := some sampleVaultedPayment }).1 ∧
    (SquareV2PaymentStrategy.execute sampleSquareEnvVerify
        { payment := some sampleVaultedPayment }).2 =
      Except.error (CheckoutError.paymentArgumentInvalid ["cardId"]) :=
  ⟨(execute_vaulted_instrument_spec sampleSquareEnvVerify sampleVaultedPayment
      { instrumentId := some "bigpay-token-1"
        shouldSaveInstrument := none
        shouldSetAsDefaultInstrument := none } "bigpay-token-1" rfl rfl).1,
    ((execute_vaulted_instrument_spec sampleSquareEnvVerify sampleVaultedPayment
      { instrumentId := some "bigpay-token-1"
        shouldSaveInstrument := none
        shouldSetAsDefaultInstrument := none } "bigpay-token-1" rfl rfl).2.2 rfl).2
      (Or.inl rfl)⟩

/-- C8: `SquareV2PaymentStrategy.execute` always submits the order before any
tokenization or buyer-verification vendor-SDK call: any vendor call in the
effect trace is preceded by a `submitOrder`. -/
theorem execute_submitOrder_before_vendor_calls (env : SquareV2Env)
    (req : OrderRequestBody) (i : Nat) (e : Effect)
    (he : (SquareV2PaymentStrategy.execute env req).1.get? i = some e)
    (hv : isVendorCall e = true) :
    ∃ j, j < i ∧
      (SquareV2PaymentStrategy.execute env req).1.get? j = some Effect.submitOrder := by
  rcases execute_trace_shape env req with h | ⟨rest, h⟩
  · rw [h] at he
    simp at he
  · rw [h] at he ⊢
    cases i with
    | zero =>
      simp at he
      rw [← he] at hv
      simp [isVendorCall] at hv
    | succ n => exact ⟨0, Nat.succ_pos n, rfl⟩

/-- Witness for C8: in a plain card run the first tokenize call sits at index
one of the trace, preceded by the order submission at index zero. -/
theorem execute_submitOrder_before_vendor_calls_witness :
    ∃ j, j < 1 ∧
      (SquareV2PaymentStrategy.execute sampleSquareEnv
        { payment := some { methodId := "squarev2", paymentData := none } }).1.get? j =
          some Effect.submitOrder :=
  execute_submitOrder_before_vendor_calls sampleSquareEnv
    { payment := some { methodId := "squarev2", paymentData := none } } 1
    Effect.tokenize rfl rfl
